import Mathlib

/-!
Verification development for the school fee-tracking application (`app.py`).

The application's data-and-logic layer is embedded shallowly:

* the payment ledger (the per-school CSV) is a list of `PaymentRow` values;
* the user database (the JSON file keyed by username) is an association
  list `UserStore`;
* Streamlit session state is a `Session` record; the mutating Python
  functions become pure functions returning the updated state;
* timestamps are integers (seconds); `datetime.now()` becomes an explicit
  `now` argument; `timedelta(days=30)` is `30 * 86400` seconds;
* fee amounts are integers: the submission form's inputs carry
  `min_value=0`, but the record-editing view's amount inputs (lines
  1425-1428) have no lower bound and are written back verbatim, so the
  ledger can hold negative amounts (the editor deals in floats; integer
  amounts suffice to capture the sign behaviour every studied property
  turns on);
* the SHA-256 password digest is irrelevant to every property studied, so
  the functions that use it are parametrised by the digest function
  `hp : String → String`; the MD5 digest used for student identifiers IS
  relevant (the identifier's shape is specified), so MD5 is embedded in
  full, RFC 1321 style, over byte lists.
-/

namespace MultiAdmin

/-! ### Bytes and UTF-8 (Python `str.encode('utf-8')`) -/

/-- UTF-8 encoding of a single Unicode scalar value, as a list of bytes. -/
def utf8Bytes (c : Char) : List Nat :=
  let n := c.toNat
  if n < 0x80 then [n]
  else if n < 0x800 then [0xC0 + n / 64, 0x80 + n % 64]
  else if n < 0x10000 then
    [0xE0 + n / 4096, 0x80 + (n / 64) % 64, 0x80 + n % 64]
  else
    [0xF0 + n / 262144, 0x80 + (n / 4096) % 64, 0x80 + (n / 64) % 64, 0x80 + n % 64]

/-- `s.encode('utf-8')` of a Python string: the concatenated UTF-8 bytes. -/
def strBytes (s : String) : List Nat :=
  (s.data.map utf8Bytes).flatten

/-! ### MD5 (RFC 1321), used by `generate_student_id` -/

/-- The 64 MD5 sine-derived constants `K[i] = floor(2^32 * |sin(i+1)|)`. -/
def md5K : List Nat :=
  [0xd76aa478, 0xe8c7b756, 0x242070db, 0xc1bdceee,
   0xf57c0faf, 0x4787c62a, 0xa8304613, 0xfd469501,
   0x698098d8, 0x8b44f7af, 0xffff5bb1, 0x895cd7be,
   0x6b901122, 0xfd987193, 0xa679438e, 0x49b40821,
   0xf61e2562, 0xc040b340, 0x265e5a51, 0xe9b6c7aa,
   0xd62f105d, 0x02441453, 0xd8a1e681, 0xe7d3fbc8,
   0x21e1cde6, 0xc33707d6, 0xf4d50d87, 0x455a14ed,
   0xa9e3e905, 0xfcefa3f8, 0x676f02d9, 0x8d2a4c8a,
   0xfffa3942, 0x8771f681, 0x6d9d6122, 0xfde5380c,
   0xa4beea44, 0x4bdecfa9, 0xf6bb4b60, 0xbebfbc70,
   0x289b7ec6, 0xeaa127fa, 0xd4ef3085, 0x04881d05,
   0xd9d4d039, 0xe6db99e5, 0x1fa27cf8, 0xc4ac5665,
   0xf4292244, 0x432aff97, 0xab9423a7, 0xfc93a039,
   0x655b59c3, 0x8f0ccc92, 0xffeff47d, 0x85845dd1,
   0x6fa87e4f, 0xfe2ce6e0, 0xa3014314, 0x4e0811a1,
   0xf7537e82, 0xbd3af235, 0x2ad7d2bb, 0xeb86d391]

/-- The 64 MD5 per-round left-rotation amounts. -/
def md5S : List Nat :=
  [7, 12, 17, 22, 7, 12, 17, 22, 7, 12, 17, 22, 7, 12, 17, 22,
   5, 9, 14, 20, 5, 9, 14, 20, 5, 9, 14, 20, 5, 9, 14, 20,
   4, 11, 16, 23, 4, 11, 16, 23, 4, 11, 16, 23, 4, 11, 16, 23,
   6, 10, 15, 21, 6, 10, 15, 21, 6, 10, 15, 21, 6, 10, 15, 21]

/-- Bitwise complement on 32-bit words represented as `Nat`. -/
def not32 (x : Nat) : Nat := Nat.xor x 4294967295

/-- 32-bit left rotation (inputs are kept below `2^32`). -/
def rotl32 (x s : Nat) : Nat :=
  Nat.lor ((x <<< s) % 4294967296) (x >>> (32 - s))

/-- One of the 64 MD5 rounds, acting on the state `(a, b, c, d)`;
`blk` is the current 16-word block. -/
def md5Round (blk : List Nat) (st : Nat × Nat × Nat × Nat) (i : Nat) :
    Nat × Nat × Nat × Nat :=
  let (a, b, c, d) := st
  let fg : Nat × Nat :=
    if i < 16 then (Nat.lor (Nat.land b c) (Nat.land (not32 b) d), i)
    else if i < 32 then (Nat.lor (Nat.land b d) (Nat.land c (not32 d)), (5 * i + 1) % 16)
    else if i < 48 then (Nat.xor b (Nat.xor c d), (3 * i + 5) % 16)
    else (Nat.xor c (Nat.lor b (not32 d)), (7 * i) % 16)
  let f := (fg.1 + a + md5K.getD i 0 + blk.getD fg.2 0) % 4294967296
  (d, (b + rotl32 f (md5S.getD i 0)) % 4294967296, b, c)

/-- Process one 64-byte block (given as 16 little-endian words). -/
def md5ProcessBlock (h : Nat × Nat × Nat × Nat) (blk : List Nat) :
    Nat × Nat × Nat × Nat :=
  let r := (List.range 64).foldl (md5Round blk) h
  ((h.1 + r.1) % 4294967296, (h.2.1 + r.2.1) % 4294967296,
   (h.2.2.1 + r.2.2.1) % 4294967296, (h.2.2.2 + r.2.2.2) % 4294967296)

/-- The 8 little-endian bytes of a 64-bit length field. -/
def u64le (n : Nat) : List Nat :=
  (List.range 8).map (fun i => (n >>> (8 * i)) % 256)

/-- The 4 little-endian bytes of a 32-bit word. -/
def u32le (n : Nat) : List Nat :=
  [n % 256, (n >>> 8) % 256, (n >>> 16) % 256, (n >>> 24) % 256]

/-- MD5 padding: a `0x80` byte, zeros to 56 mod 64, then the bit length. -/
def md5Pad (msg : List Nat) : List Nat :=
  let len := msg.length
  let zeros := (120 - ((len + 1) % 64)) % 64
  msg ++ [0x80] ++ List.replicate zeros 0 ++ u64le ((len * 8) % 18446744073709551616)

/-- Group bytes into little-endian 32-bit words (input length a multiple of 4). -/
def toWords : List Nat → List Nat
  | b0 :: b1 :: b2 :: b3 :: rest =>
      (b0 + 256 * b1 + 65536 * b2 + 16777216 * b3) :: toWords rest
  | _ => []

/-- Group words into 16-word blocks (input length a multiple of 16). -/
def toBlocks : List Nat → List (List Nat)
  | w0 :: w1 :: w2 :: w3 :: w4 :: w5 :: w6 :: w7 ::
    w8 :: w9 :: w10 :: w11 :: w12 :: w13 :: w14 :: w15 :: rest =>
      [w0, w1, w2, w3, w4, w5, w6, w7, w8, w9, w10, w11, w12, w13, w14, w15]
        :: toBlocks rest
  | _ => []

/-- The 16-byte MD5 digest of a byte list. -/
def md5DigestBytes (msg : List Nat) : List Nat :=
  let blocks := toBlocks (toWords (md5Pad msg))
  let r := blocks.foldl md5ProcessBlock (0x67452301, 0xefcdab89, 0x98badcfe, 0x10325476)
  u32le r.1 ++ u32le r.2.1 ++ u32le r.2.2.1 ++ u32le r.2.2.2

/-- Lower-case hex character for a value below 16. -/
def hexChar (n : Nat) : Char :=
  if n < 10 then Char.ofNat (48 + n) else Char.ofNat (87 + n)

/-- Two lower-case hex characters of a byte. -/
def byteHex (b : Nat) : List Char := [hexChar (b / 16), hexChar (b % 16)]

/-- Python `hashlib.md5(msg).hexdigest()`: 32 lower-case hex characters. -/
def md5_hexdigest (msg : List Nat) : String :=
  String.mk ((md5DigestBytes msg).map byteHex).flatten

/-- `generate_student_id` from `app.py`: MD5 of `f"{name}_{class}"` encoded
as UTF-8, first 8 hex digits, upper-cased.  The Python slice
`hexdigest()[:8].upper()` is expressed on the character list. -/
def generate_student_id (student_name class_category : String) : String :=
  String.mk (((md5_hexdigest (strBytes (student_name ++ "_" ++ class_category))).data.take 8).map
    Char.toUpper)

/-! ### Academic year (`get_academic_year`) -/

/-- A Python `datetime.date`: year (an arbitrary integer in the model),
month `1..12`, day.  Only `year` and `month` are read by the program. -/
structure PyDate where
  year : Int
  month : Nat
  day : Nat
deriving DecidableEq, Repr

/-- `get_academic_year` from `app.py`: the academic year starts in April. -/
def get_academic_year (date : PyDate) : String :=
  if date.month ≥ 4 then toString date.year ++ "-" ++ toString (date.year + 1)
  else toString (date.year - 1) ++ "-" ++ toString date.year

/-! ### The payment ledger (`fees_data_<school>.csv`) -/

/-- One row of the per-school fee CSV.  Fee amounts are `Int`: the
submission form's `st.number_input`s carry `min_value=0`, but the
record-editing view's amount inputs (app.py lines 1425-1428) have no
lower bound, and `update_data` writes the edited values back verbatim,
so negative amounts are reachable through the app itself.  `month` holds
one of the 12 month names or the sentinels `"ANNUAL"` / `"ADMISSION"`
when written by the app, but the model allows any string, as the CSV
does. -/
structure PaymentRow where
  id : String
  student_name : String
  class_category : String
  class_section : String
  month : String
  monthly_fee : Int
  annual_charges : Int
  admission_fee : Int
  received_amount : Int
  payment_method : String
  date : String
  signature : String
  entry_timestamp : String
  academic_year : String
deriving DecidableEq, Repr

/-- The ledger: the rows of the per-school CSV, in file order. -/
abbrev Ledger := List PaymentRow

/-- `check_annual_admission_paid` from `app.py`: filter the ledger to the
rows matching `(student_id, academic_year)` and test whether the sums of
the `Annual Charges` and `Admission Fee` columns are positive.  The
`df.empty` early return of the source is kept. -/
def check_annual_admission_paid (ledger : Ledger) (student_id academic_year : String) :
    Bool × Bool :=
  if ledger.isEmpty then (false, false)
  else
    let student_records :=
      ledger.filter (fun r => r.id == student_id && r.academic_year == academic_year)
    (decide (0 < (student_records.map (·.annual_charges)).sum),
     decide (0 < (student_records.map (·.admission_fee)).sum))

/-- The month list of `get_unpaid_months`, ordered April through March. -/
def all_months : List String :=
  ["APRIL", "MAY", "JUNE", "JULY", "AUGUST", "SEPTEMBER",
   "OCTOBER", "NOVEMBER", "DECEMBER", "JANUARY", "FEBRUARY", "MARCH"]

/-- `get_unpaid_months` from `app.py`.  `student_id` is `Option String`
because the session's `current_student_id` can be Python `None`; the
source returns all months when the ledger is empty or the id is `None`.
The source's `.unique().tolist()` only deduplicates `paid_months`, which
does not change membership, so it is not modelled. -/
def get_unpaid_months (ledger : Ledger) (student_id : Option String) : List String :=
  match student_id with
  | none => all_months
  | some sid =>
    if ledger.isEmpty then all_months
    else
      let paid_months :=
        (ledger.filter (fun r => r.id == sid && decide (0 < r.monthly_fee))).map (·.month)
      all_months.filter (fun month => !(paid_months.contains month))

/-- The `main_app` submission path for `fee_type == "Annual Charges"`
(lines 1295-1296 and 1300-1341 of `app.py`): the pre-check
`check_annual_admission_paid` gates the append; on rejection the ledger
file is untouched, on acceptance `save_to_csv` concatenates the new row. -/
def submit_annual_charges (ledger : Ledger) (student_id academic_year : String)
    (row : PaymentRow) : Bool × Ledger :=
  if (check_annual_admission_paid ledger student_id academic_year).1 then (false, ledger)
  else (true, ledger ++ [row])

/-- The `main_app` submission path for `fee_type == "Admission Fee"`
(lines 1297-1298 and 1300-1341 of `app.py`), analogous to
`submit_annual_charges`. -/
def submit_admission_fee (ledger : Ledger) (student_id academic_year : String)
    (row : PaymentRow) : Bool × Ledger :=
  if (check_annual_admission_paid ledger student_id academic_year).2 then (false, ledger)
  else (true, ledger ++ [row])

/-! ### The user database (`users.json`) and session state

The JSON user database is an association list from username to record
(Python `dict` preserves keys uniquely; `lookupUser` takes the first
match, `insertUser` replaces in place or appends, matching `dict`
assignment).  Timestamps are integer seconds; the password digest
function is a parameter `hp` (the source uses unsalted SHA-256, whose
internals no studied property depends on). -/

/-- One record of `users.json`, as written by `create_user`. -/
structure UserRecord where
  password : String
  is_admin : Bool
  is_admin_owner : Bool
  email : String
  school_name : Option String
  created_at : Int
  trial_start : Int
  trial_end : Option Int
  created_by : String
deriving DecidableEq, Repr

/-- The user database: username-keyed association list. -/
abbrev UserStore := List (String × UserRecord)

/-- `users[username]` lookup (first match). -/
def lookupUser (users : UserStore) (username : String) : Option UserRecord :=
  (users.find? (fun p => p.1 == username)).map (·.2)

/-- `users[username] = rec`: replace in place, or append if absent. -/
def insertUser (users : UserStore) (username : String) (rec : UserRecord) : UserStore :=
  if users.any (fun p => p.1 == username) then
    users.map (fun p => if p.1 == username then (username, rec) else p)
  else users ++ [(username, rec)]

/-- `del users[username]`. -/
def removeUser (users : UserStore) (username : String) : UserStore :=
  users.filter (fun p => p.1 != username)

/-- The Streamlit session-state fields touched by authentication. -/
structure Session where
  authenticated : Bool
  current_user : Option String
  is_admin : Bool
  is_admin_owner : Bool
  school_name : Option String
  trial_remaining : Option Int
deriving DecidableEq, Repr

/-- The session before any authentication attempt (the initial values
set at the top of `app.py`). -/
def initialSession : Session :=
  { authenticated := false, current_user := none, is_admin := false,
    is_admin_owner := false, school_name := none, trial_remaining := none }

/-- The observable outcome of `authenticate_user`: the source returns
`True` on success and `False` otherwise, emitting the dedicated
trial-expired error message on the expired path. -/
inductive AuthOutcome where
  | success
  | failure
  | trialExpired
deriving DecidableEq, Repr

/-- `verify_password` from `app.py`: stored digest equals digest of the
provided password. -/
def verify_password (hp : String → String) (stored provided : String) : Bool :=
  stored == hp provided

/-- `authenticate_user` from `app.py`.  On a password match the session
fields are assigned BEFORE the trial check; the expired path only resets
`authenticated` (the other fields keep the just-assigned values) and
returns `False` with the trial-expired message.  File initialisation
side effects (`initialize_school_files`) are I/O and not modelled. -/
def authenticate_user (hp : String → String) (users : UserStore) (s : Session)
    (username password : String) (now : Int) : AuthOutcome × Session :=
  match lookupUser users username with
  | none => (.failure, s)
  | some rec =>
    if verify_password hp rec.password password then
      let s1 : Session :=
        { s with authenticated := true, current_user := some username,
                 is_admin := rec.is_admin, is_admin_owner := rec.is_admin_owner,
                 school_name := rec.school_name }
      match rec.trial_end with
      | some t =>
        if now > t then (.trialExpired, { s1 with authenticated := false })
        else (.success, { s1 with trial_remaining := some (t - now) })
      | none => (.success, { s1 with trial_remaining := none })
    else (.failure, s)

/-- `validate_email` from `app.py`: Python
`re.match(r'^[a-zA-Z0-9._%+-]+@gmail\.com$', email)`.  The character
class is ASCII; `$` also matches just before one trailing newline. -/
def isEmailLocalChar (c : Char) : Bool :=
  c.isAlpha || c.isDigit || c == '.' || c == '_' || c == '%' || c == '+' || c == '-'

/-- See `isEmailLocalChar`; the local part must be nonempty and the
string must end (up to one trailing newline) in `@gmail.com`. -/
def validate_email (email : String) : Bool :=
  let cs := if email.data.getLast? == some '\x0a' then email.data.dropLast else email.data
  let suffix := "@gmail.com".data
  decide (suffix.length < cs.length) &&
    cs.drop (cs.length - suffix.length) == suffix &&
    (cs.take (cs.length - suffix.length)).all isEmailLocalChar

/-- Python truthiness of the optional school name: `not school_name` is
true for `None` and for the empty string. -/
def schoolNameMissing : Option String → Bool
  | none => true
  | some s => s == ""

/-- `create_user` from `app.py`.  `current_user` is the session's
current user (`None` before any login); `now` is `datetime.now()`.
Returns the success flag and the resulting store (the source also
returns a message string, which no property depends on).  The session
side effect on `st.session_state.school_name` for a fresh AdminOwner is
presentation state and not modelled. -/
def create_user (hp : String → String) (users : UserStore) (current_user : Option String)
    (now : Int) (username password email : String) (school_name : Option String)
    (is_admin is_admin_owner : Bool) : Bool × UserStore :=
  if !(validate_email email) then (false, users)
  else if users.any (fun p => p.2.email == email) then (false, users)
  else if is_admin_owner && schoolNameMissing school_name then (false, users)
  else
    let inherited : Option String :=
      match current_user with
      | some u => (lookupUser users u).bind (·.school_name)
      | none => none
    let creator : String :=
      match current_user with
      | some u => if u == "" then "system" else u
      | none => "system"
    let newRec : UserRecord :=
      { password := hp password, is_admin := is_admin, is_admin_owner := is_admin_owner,
        email := email,
        school_name := if is_admin_owner then school_name else inherited,
        created_at := now, trial_start := now, trial_end := some (now + 30 * 86400),
        created_by := creator }
    (true, insertUser users username newRec)

/-! ### User deletion (`user_management`, lines 769-827 of `app.py`) -/

/-- The usernames offered by the delete selectbox: users created by the
current user, plus the current user themselves (line 776). -/
def visible_users (users : UserStore) (current : String) : List String :=
  (users.filter (fun p => p.2.created_by == current || p.1 == current)).map (·.1)

/-- The delete-button handler (lines 806-827): self-deletion is refused,
an AdminOwner record is refused, otherwise the record is removed.
Returns the success flag and the resulting store. -/
def delete_user (users : UserStore) (current target : String) : Bool × UserStore :=
  if target == current then (false, users)
  else
    match lookupUser users target with
    | some rec =>
      if rec.is_admin_owner then (false, users)
      else (true, removeUser users target)
    | none => (false, users)

end MultiAdmin

/-! ## Theorems -/
namespace MultiAdmin

lemma strBytes_append (a b : String) : strBytes (a ++ b) = strBytes a ++ strBytes b := by
  simp [strBytes, String.append]

lemma strBytes_underscore : strBytes "_" = utf8Bytes '_' := by
  simp [strBytes]

lemma md5DigestBytes_length (msg : List Nat) : (md5DigestBytes msg).length = 16 := by
  simp [md5DigestBytes, u32le]

lemma flatten_map_byteHex_length (l : List Nat) :
    ((l.map byteHex).flatten).length = 2 * l.length := by
  induction l with
  | nil => rfl
  | cons b bs ih => simp [byteHex, ih]; omega

lemma md5_hexdigest_length (msg : List Nat) : (md5_hexdigest msg).length = 32 := by
  show (((md5DigestBytes msg).map byteHex).flatten).length = 32
  rw [flatten_map_byteHex_length, md5DigestBytes_length]

lemma md5_empty : md5_hexdigest [] = "d41d8cd98f00b204e9800998ecf8427e" := by decide

lemma md5_abc : md5_hexdigest (strBytes "abc") = "900150983cd24fb0d6963f7d28e17f72" := by decide

/-- Claim C8: `generate_student_id` is a deterministic function of its two
arguments, equal to the upper-case of the first 8 hex characters of a
128-bit content hash (MD5) of the UTF-8 bytes of name, underscore, and
class category concatenated; equal inputs always yield equal identifiers. -/
theorem claim_C8_identity (student_name class_category : String) :
    (generate_student_id student_name class_category =
      String.mk
        (((md5_hexdigest (strBytes student_name ++ utf8Bytes '_' ++ strBytes class_category)).data.take 8).map
          Char.toUpper))
    ∧ (md5_hexdigest (strBytes student_name ++ utf8Bytes '_' ++ strBytes class_category)).length = 32
    ∧ (∀ n c, n = student_name → c = class_category →
        generate_student_id n c = generate_student_id student_name class_category) := by
  refine ⟨?_, md5_hexdigest_length _, ?_⟩
  · unfold generate_student_id
    rw [strBytes_append, strBytes_append, strBytes_underscore]
  · intro n c hn hc
    rw [hn, hc]

/-- Witness for C8 at the end-to-end scenario's student, with the
identifier value checked against an external MD5 computation. -/
theorem claim_C8_identity_witness :
    generate_student_id "Ali Khan" "Class 3" =
      String.mk
        (((md5_hexdigest (strBytes "Ali Khan" ++ utf8Bytes '_' ++ strBytes "Class 3")).data.take 8).map
          Char.toUpper)
    ∧ generate_student_id "Ali Khan" "Class 3" = generate_student_id "Ali Khan" "Class 3"
    ∧ generate_student_id "Ali Khan" "Class 3" = "4B58D031" :=
  ⟨(claim_C8_identity "Ali Khan" "Class 3").1,
   (claim_C8_identity "Ali Khan" "Class 3").2.2 "Ali Khan" "Class 3" rfl rfl,
   by decide⟩

/-- Claim C4: the derived academic year is `"{y}-{y+1}"` when the month
index is at least 4 and `"{y-1}-{y}"` otherwise; in particular April 1 of
year Y maps to `"Y-(Y+1)"` and March 31 of year Y to `"(Y-1)-Y"`. -/
theorem claim_C4_academic_year (d : PyDate) :
    (4 ≤ d.month → get_academic_year d = toString d.year ++ "-" ++ toString (d.year + 1))
    ∧ (d.month < 4 → get_academic_year d = toString (d.year - 1) ++ "-" ++ toString d.year)
    ∧ get_academic_year ⟨d.year, 4, 1⟩ = toString d.year ++ "-" ++ toString (d.year + 1)
    ∧ get_academic_year ⟨d.year, 3, 31⟩ = toString (d.year - 1) ++ "-" ++ toString d.year := by
  refine ⟨fun h => ?_, fun h => ?_, ?_, ?_⟩
  · simp [get_academic_year, h]
  · simp [get_academic_year]; omega
  · simp [get_academic_year]
  · simp [get_academic_year]

/-- Witness for C4 at April 1, 2025 and March 31, 2026. -/
theorem claim_C4_academic_year_witness :
    get_academic_year ⟨2025, 4, 1⟩ = "2025-2026" ∧ get_academic_year ⟨2026, 3, 31⟩ = "2025-2026" :=
  ⟨((claim_C4_academic_year ⟨2025, 4, 1⟩).1 (by decide)).trans (by decide),
   ((claim_C4_academic_year ⟨2026, 3, 31⟩).2.1 (by decide)).trans (by decide)⟩

end MultiAdmin
namespace MultiAdmin

/-- A demo AdminOwner credential record used to instantiate theorems on
concrete inputs (digest function instantiated to the identity). -/
def demoOwnerRec : UserRecord :=
  { password := "pw", is_admin := true, is_admin_owner := true,
    email := "admin1@gmail.com", school_name := some "Green Valley",
    created_at := 0, trial_start := 0, trial_end := some 100,
    created_by := "system" }

/-- A demo one-user store. -/
def demoUsers : UserStore := [("admin1", demoOwnerRec)]

/-- Claim C5: with a stored trial-end timestamp and a correct password,
authentication at a current time exactly equal to the trial end succeeds,
and at any current time strictly after it fails with the trial-expired
outcome. -/
theorem claim_C5_trial_boundary (hp : String → String) (users : UserStore) (s : Session)
    (username password : String) (r : UserRecord) (t now : Int)
    (hfind : lookupUser users username = some r)
    (hpw : r.password = hp password)
    (htrial : r.trial_end = some t) :
    (now = t → (authenticate_user hp users s username password now).1 = AuthOutcome.success)
    ∧ (t < now → (authenticate_user hp users s username password now).1 = AuthOutcome.trialExpired) := by
  constructor
  · intro h
    subst h
    simp [authenticate_user, hfind, verify_password, hpw, htrial]
  · intro h
    simp [authenticate_user, hfind, verify_password, hpw, htrial, h]

/-- Witness for C5: the demo AdminOwner at times 100 (= trial end) and 101. -/
theorem claim_C5_trial_boundary_witness :
    (authenticate_user (fun p => p) demoUsers initialSession "admin1" "pw" 100).1 = AuthOutcome.success
    ∧ (authenticate_user (fun p => p) demoUsers initialSession "admin1" "pw" 101).1 = AuthOutcome.trialExpired :=
  ⟨(claim_C5_trial_boundary (fun p => p) demoUsers initialSession "admin1" "pw" demoOwnerRec
      100 100 (by decide) rfl rfl).1 rfl,
   (claim_C5_trial_boundary (fun p => p) demoUsers initialSession "admin1" "pw" demoOwnerRec
      100 101 (by decide) rfl rfl).2 (by decide)⟩

/-- Counterexample to C6 as stated: after a correct-password attempt on an
expired trial the outcome is trial-expired, yet the session is NOT the
untouched initial session — `current_user`, the admin flag and the school
name are left set to the attempted user's values. -/
theorem claim_C6_counterexample :
    (authenticate_user (fun p => p) demoUsers initialSession "admin1" "pw" 101).1 = AuthOutcome.trialExpired
    ∧ (authenticate_user (fun p => p) demoUsers initialSession "admin1" "pw" 101).2.current_user = some "admin1"
    ∧ (authenticate_user (fun p => p) demoUsers initialSession "admin1" "pw" 101).2.is_admin = true
    ∧ (authenticate_user (fun p => p) demoUsers initialSession "admin1" "pw" 101).2.school_name = some "Green Valley"
    ∧ initialSession.current_user = none ∧ initialSession.is_admin = false
    ∧ initialSession.school_name = none := by
  decide

/-- Claim C6 as amended: with a correct password and an expired trial,
authentication fails with the trial-expired outcome and no authenticated
session is established (the `authenticated` flag is false), but the
current-user, role-flag and school-name session fields are left set to
the attempted user's values (and `trial_remaining` keeps its old value). -/
theorem claim_C6_expired_no_auth (hp : String → String) (users : UserStore) (s : Session)
    (username password : String) (r : UserRecord) (t now : Int)
    (hfind : lookupUser users username = some r)
    (hpw : r.password = hp password)
    (htrial : r.trial_end = some t)
    (hexp : t < now) :
    authenticate_user hp users s username password now =
      (AuthOutcome.trialExpired,
       { s with authenticated := false, current_user := some username,
                is_admin := r.is_admin, is_admin_owner := r.is_admin_owner,
                school_name := r.school_name }) := by
  simp [authenticate_user, hfind, verify_password, hpw, htrial, hexp]

/-- Witness for the amended C6: the demo AdminOwner at time 101. -/
theorem claim_C6_expired_no_auth_witness :
    authenticate_user (fun p => p) demoUsers initialSession "admin1" "pw" 101 =
      (AuthOutcome.trialExpired,
       { initialSession with authenticated := false, current_user := some "admin1",
                             is_admin := true, is_admin_owner := true,
                             school_name := some "Green Valley" }) :=
  claim_C6_expired_no_auth (fun p => p) demoUsers initialSession "admin1" "pw" demoOwnerRec
    100 101 (by decide) rfl rfl (by decide)

end MultiAdmin
namespace MultiAdmin

lemma string_beq_comm (a b : String) : (a == b) = (b == a) := by
  by_cases h : a = b
  · subst h
    rfl
  · have h2 : ¬ b = a := fun e => h e.symm
    simp [h, h2]

lemma contains_month_filter (l : Ledger) (p : PaymentRow → Bool) (m : String) :
    ((l.filter p).map (·.month)).contains m = l.any (fun r => p r && r.month == m) := by
  induction l with
  | nil => rfl
  | cons r rs ih =>
    by_cases hp : p r
    · simp [List.filter_cons, hp, List.any_cons, ← ih, List.contains, string_beq_comm m r.month]
    · simp [List.filter_cons, hp, List.any_cons, ← ih]

/-- Membership characterisation of `get_unpaid_months` via the ledger. -/
lemma mem_unpaid_iff (ledger : Ledger) (sid m : String) :
    m ∈ get_unpaid_months ledger (some sid)
      ↔ m ∈ all_months
        ∧ ¬ ledger.any (fun r => r.id == sid && decide (0 < r.monthly_fee) && r.month == m) = true := by
  simp only [get_unpaid_months]
  by_cases he : ledger.isEmpty
  · rw [List.isEmpty_iff] at he
    subst he
    simp
  · rw [if_neg he, List.mem_filter, contains_month_filter]
    simp

/-- Modelled from the spec sentence: the months (among the 12 month
names) for which some ledger row with the given identifier carries a
positive Monthly Fee. -/
def paid_months_with_positive_fee (ledger : Ledger) (sid : String) : List String :=
  all_months.filter
    (fun m => ledger.any (fun r => r.id == sid && decide (0 < r.monthly_fee) && r.month == m))

/-- Claim C2: for any ledger state, the unpaid months and the months with
a positive-Monthly-Fee row for the identifier are disjoint, and their
union is exactly the full set of 12 month names (stated pointwise over
month membership). -/
theorem claim_C2_unpaid_partition (ledger : Ledger) (sid m : String) :
    ((m ∈ get_unpaid_months ledger (some sid) ∨ m ∈ paid_months_with_positive_fee ledger sid)
      ↔ m ∈ all_months)
    ∧ ¬(m ∈ get_unpaid_months ledger (some sid) ∧ m ∈ paid_months_with_positive_fee ledger sid) := by
  have hu := mem_unpaid_iff ledger sid m
  have hpm : m ∈ paid_months_with_positive_fee ledger sid
      ↔ m ∈ all_months
        ∧ ledger.any (fun r => r.id == sid && decide (0 < r.monthly_fee) && r.month == m) = true := by
    unfold paid_months_with_positive_fee
    rw [List.mem_filter]
  constructor
  · rw [hu, hpm]
    tauto
  · rw [hu, hpm]
    tauto

/-- Witness for C2 at the empty ledger and the month `"APRIL"`. -/
theorem claim_C2_unpaid_partition_witness :
    (("APRIL" ∈ get_unpaid_months [] (some "X") ∨ "APRIL" ∈ paid_months_with_positive_fee [] "X")
      ↔ "APRIL" ∈ all_months)
    ∧ ¬("APRIL" ∈ get_unpaid_months [] (some "X") ∧ "APRIL" ∈ paid_months_with_positive_fee [] "X") :=
  claim_C2_unpaid_partition [] "X" "APRIL"

/-- A demo ledger: one April monthly payment and one annual payment for
the student `"Ali Khan"`/`"Class 3"` in academic year `"2025-2026"`. -/
def demoMonthlyRow : PaymentRow :=
  { id := "4B58D031", student_name := "Ali Khan", class_category := "Class 3",
    class_section := "A", month := "APRIL", monthly_fee := 2000,
    annual_charges := 0, admission_fee := 0, received_amount := 2000,
    payment_method := "Cash", date := "2025-04-01", signature := "clerk",
    entry_timestamp := "2025-04-01 09:00:00", academic_year := "2025-2026" }

/-- See `demoMonthlyRow`; the annual-charges row. -/
def demoAnnualRow : PaymentRow :=
  { demoMonthlyRow with month := "ANNUAL", monthly_fee := 0,
                        annual_charges := 5000, admission_fee := 0,
                        received_amount := 5000 }

/-- See `demoMonthlyRow`. -/
def demoLedger : Ledger := [demoMonthlyRow, demoAnnualRow]

/-- Claim C3: `get_unpaid_months` returns the twelve month names in April
through March order, minus every month for which some ledger row with the
identifier has a positive Monthly Fee; with no rows for the student it
returns all twelve. -/
theorem claim_C3_unpaid_months (ledger : Ledger) (sid : String) :
    get_unpaid_months ledger (some sid) =
      all_months.filter
        (fun m => !(ledger.any (fun r => r.id == sid && decide (0 < r.monthly_fee) && r.month == m)))
    ∧ (ledger.filter (fun r => r.id == sid) = [] →
        get_unpaid_months ledger (some sid) = all_months) := by
  have hmain : get_unpaid_months ledger (some sid) =
      all_months.filter
        (fun m => !(ledger.any (fun r => r.id == sid && decide (0 < r.monthly_fee) && r.month == m))) := by
    simp only [get_unpaid_months]
    by_cases he : ledger.isEmpty
    · rw [List.isEmpty_iff] at he
      subst he
      simp
    · rw [if_neg he]
      apply List.filter_congr
      intro m _
      rw [contains_month_filter]
  refine ⟨hmain, fun hnone => ?_⟩
  rw [hmain]
  have hall : ∀ r ∈ ledger, ¬(fun r => r.id == sid) r = true := by
    rw [← List.filter_eq_nil_iff]
    exact hnone
  have hpt : ∀ m ∈ all_months,
      (!(ledger.any (fun r => r.id == sid && decide (0 < r.monthly_fee) && r.month == m)))
        = (fun _ => true) m := by
    intro m _
    simp only [Bool.not_eq_eq_eq_not, Bool.not_true, List.any_eq_false]
    intro r hr
    have := hall r hr
    simp only [Bool.not_eq_true] at this
    simp [this]
  rw [List.filter_congr hpt, List.filter_true]

/-- Witness for C3: the demo ledger holds no rows for the id `"NOPE"`. -/
theorem claim_C3_unpaid_months_witness :
    get_unpaid_months demoLedger (some "NOPE") =
      all_months.filter
        (fun m => !(demoLedger.any (fun r => r.id == "NOPE" && decide (0 < r.monthly_fee) && r.month == m)))
    ∧ get_unpaid_months demoLedger (some "NOPE") = all_months :=
  ⟨(claim_C3_unpaid_months demoLedger "NOPE").1,
   (claim_C3_unpaid_months demoLedger "NOPE").2 (by decide)⟩

end MultiAdmin
namespace MultiAdmin

/-- The first component of `check_annual_admission_paid` equals the
positivity of the matching Annual Charges sum (and similarly for the
second component and Admission Fee), with the rows "matching the pair"
stated propositionally. -/
lemma check_eq_sum_pos (ledger : Ledger) (sid ay : String) :
    check_annual_admission_paid ledger sid ay =
      (decide (0 < ((ledger.filter (fun r => decide (r.id = sid ∧ r.academic_year = ay))).map
          (·.annual_charges)).sum),
       decide (0 < ((ledger.filter (fun r => decide (r.id = sid ∧ r.academic_year = ay))).map
          (·.admission_fee)).sum)) := by
  unfold check_annual_admission_paid
  have hfil : (fun (r : PaymentRow) => r.id == sid && r.academic_year == ay)
      = (fun r => decide (r.id = sid ∧ r.academic_year = ay)) := by
    funext r
    simp only [Bool.decide_and]
    rfl
  by_cases he : ledger.isEmpty
  · rw [List.isEmpty_iff] at he
    subst he
    simp
  · rw [if_neg he, hfil]

lemma sum_pos_of_mem {l : List Int} {x : Int} (hx : x ∈ l) (hpos : 0 < x)
    (hnn : ∀ y ∈ l, 0 ≤ y) : 0 < l.sum :=
  lt_of_lt_of_le hpos (List.single_le_sum hnn x hx)

/-- A second annual-charges row, as the resubmission payload. -/
def demoAnnualRow2 : PaymentRow :=
  { demoAnnualRow with received_amount := 5000, date := "2025-05-01" }

/-- The demo monthly row after its Annual Charges field was edited to
`-5000` in the record-editing view, whose amount inputs have no lower
bound (app.py lines 1425-1428); `update_data` writes it back as is. -/
def demoEditedRow : PaymentRow :=
  { demoMonthlyRow with annual_charges := -5000 }

/-- A ledger reachable through the app itself: the 5000 annual payment
plus the edited row carrying `-5000` Annual Charges for the same
`(identifier, academic_year)` pair. -/
def demoEditedLedger : Ledger := [demoAnnualRow, demoEditedRow]

/-- Counterexample to C1 as stated: this app-reachable ledger holds a row
with positive (5000) Annual Charges for the pair, yet the pre-check
reports annual-paid as false (the matching sum is 0 because of the
edited `-5000` row), and the second Annual Charges submission is
appended rather than rejected. -/
theorem claim_C1_counterexample :
    (∃ r ∈ demoEditedLedger,
        r.id = "4B58D031" ∧ r.academic_year = "2025-2026" ∧ 0 < r.annual_charges)
    ∧ (check_annual_admission_paid demoEditedLedger "4B58D031" "2025-2026").1 = false
    ∧ submit_annual_charges demoEditedLedger "4B58D031" "2025-2026" demoAnnualRow2
        = (true, demoEditedLedger ++ [demoAnnualRow2]) := by
  decide

/-- Claim C1 as amended: the pre-check returns true exactly when the sum
of Annual Charges across rows matching `(identifier, academic_year)` is
positive (and analogously for Admission Fee), unconditionally; and
provided the matching rows carry no negative Annual Charges amount — as
is the case for every row written by the submission form, whose inputs
have `min_value=0` — a row with positive Annual Charges for the pair
makes the check report annual-paid and a second Annual Charges
submission is rejected rather than appended (again analogously for
Admission Fee).  A negative edited amount can cancel the sum and let a
duplicate through, as the counterexample shows. -/
theorem claim_C1_duplicate_prevention (ledger : Ledger) (sid ay : String) (row : PaymentRow) :
    ((∀ r ∈ ledger, r.id = sid → r.academic_year = ay → 0 ≤ r.annual_charges) →
      (∃ r ∈ ledger, r.id = sid ∧ r.academic_year = ay ∧ 0 < r.annual_charges) →
        (check_annual_admission_paid ledger sid ay).1 = true
        ∧ submit_annual_charges ledger sid ay row = (false, ledger))
    ∧ ((check_annual_admission_paid ledger sid ay).1 = true ↔
        0 < ((ledger.filter (fun r => decide (r.id = sid ∧ r.academic_year = ay))).map
          (·.annual_charges)).sum)
    ∧ ((∀ r ∈ ledger, r.id = sid → r.academic_year = ay → 0 ≤ r.admission_fee) →
      (∃ r ∈ ledger, r.id = sid ∧ r.academic_year = ay ∧ 0 < r.admission_fee) →
        (check_annual_admission_paid ledger sid ay).2 = true
        ∧ submit_admission_fee ledger sid ay row = (false, ledger))
    ∧ ((check_annual_admission_paid ledger sid ay).2 = true ↔
        0 < ((ledger.filter (fun r => decide (r.id = sid ∧ r.academic_year = ay))).map
          (·.admission_fee)).sum) := by
  have hch := check_eq_sum_pos ledger sid ay
  have hiff1 : (check_annual_admission_paid ledger sid ay).1 = true ↔
      0 < ((ledger.filter (fun r => decide (r.id = sid ∧ r.academic_year = ay))).map
        (·.annual_charges)).sum := by
    rw [hch]
    simp
  have hiff2 : (check_annual_admission_paid ledger sid ay).2 = true ↔
      0 < ((ledger.filter (fun r => decide (r.id = sid ∧ r.academic_year = ay))).map
        (·.admission_fee)).sum := by
    rw [hch]
    simp
  refine ⟨fun hnn hex => ?_, hiff1, fun hnn hex => ?_, hiff2⟩
  · obtain ⟨r, hr, hid, hay, hpos⟩ := hex
    have hmem : r.annual_charges ∈
        ((ledger.filter (fun r => decide (r.id = sid ∧ r.academic_year = ay))).map
          (·.annual_charges)) := by
      apply List.mem_map_of_mem
      rw [List.mem_filter]
      exact ⟨hr, by simp [hid, hay]⟩
    have hnnl : ∀ y ∈ ((ledger.filter (fun r => decide (r.id = sid ∧ r.academic_year = ay))).map
        (·.annual_charges)), 0 ≤ y := by
      intro y hy
      rcases List.mem_map.mp hy with ⟨q, hq, rfl⟩
      rw [List.mem_filter] at hq
      have hqm := of_decide_eq_true hq.2
      exact hnn q hq.1 hqm.1 hqm.2
    have hck : (check_annual_admission_paid ledger sid ay).1 = true :=
      hiff1.mpr (sum_pos_of_mem hmem hpos hnnl)
    refine ⟨hck, ?_⟩
    unfold submit_annual_charges
    rw [hck]
    simp
  · obtain ⟨r, hr, hid, hay, hpos⟩ := hex
    have hmem : r.admission_fee ∈
        ((ledger.filter (fun r => decide (r.id = sid ∧ r.academic_year = ay))).map
          (·.admission_fee)) := by
      apply List.mem_map_of_mem
      rw [List.mem_filter]
      exact ⟨hr, by simp [hid, hay]⟩
    have hnnl : ∀ y ∈ ((ledger.filter (fun r => decide (r.id = sid ∧ r.academic_year = ay))).map
        (·.admission_fee)), 0 ≤ y := by
      intro y hy
      rcases List.mem_map.mp hy with ⟨q, hq, rfl⟩
      rw [List.mem_filter] at hq
      have hqm := of_decide_eq_true hq.2
      exact hnn q hq.1 hqm.1 hqm.2
    have hck : (check_annual_admission_paid ledger sid ay).2 = true :=
      hiff2.mpr (sum_pos_of_mem hmem hpos hnnl)
    refine ⟨hck, ?_⟩
    unfold submit_admission_fee
    rw [hck]
    simp

/-- Witness for the amended C1: the demo ledger (all amounts written by
the submission form, hence nonnegative) already holds a 5000 annual
payment for the student in 2025-2026, so a second annual submission is
refused. -/
theorem claim_C1_duplicate_prevention_witness :
    (check_annual_admission_paid demoLedger "4B58D031" "2025-2026").1 = true
    ∧ submit_annual_charges demoLedger "4B58D031" "2025-2026" demoAnnualRow2 = (false, demoLedger) :=
  (claim_C1_duplicate_prevention demoLedger "4B58D031" "2025-2026" demoAnnualRow2).1
    (by decide) (by decide)

end MultiAdmin
namespace MultiAdmin

/-- With username-keys unique (the `dict` invariant), `find?` locates
exactly the entry any member with that key. -/
lemma find_entry_of_nodup (users : UserStore) (p : String × UserRecord)
    (hnd : (users.map Prod.fst).Nodup) (hp : p ∈ users) :
    users.find? (fun q => q.1 == p.1) = some p := by
  induction users with
  | nil => cases hp
  | cons q qs ih =>
    rw [List.map_cons, List.nodup_cons] at hnd
    rcases List.mem_cons.mp hp with hp | hp
    · subst hp
      simp [List.find?_cons]
    · have hq : (q.1 == p.1) = false := by
        simp only [beq_eq_false_iff_ne, ne_eq]
        intro he
        exact hnd.1 (he ▸ List.mem_map_of_mem Prod.fst hp)
      simp [List.find?_cons, hq, ih hnd.2 hp]

/-- Claim C9: a record whose AdminOwner flag is true is never removed (the
delete returns failure and the store is unchanged); and when a delete
taken from the management view's selection list succeeds, the record's
creator is the current user or the target is the current user. -/
theorem claim_C9_admin_owner_protected (users : UserStore) (current target : String)
    (hnd : (users.map Prod.fst).Nodup) :
    (∀ r, lookupUser users target = some r → r.is_admin_owner = true →
        delete_user users current target = (false, users))
    ∧ ((delete_user users current target).1 = true →
        target ∈ visible_users users current →
        ∃ r, lookupUser users target = some r
          ∧ (r.created_by = current ∨ target = current)) := by
  constructor
  · intro r hr hown
    unfold delete_user
    by_cases hc : target == current
    · rw [if_pos hc]
    · rw [if_neg hc, hr]
      simp [hown]
  · intro hsucc hvis
    unfold visible_users at hvis
    rw [List.mem_map] at hvis
    obtain ⟨p, hpf, hpt⟩ := hvis
    rw [List.mem_filter] at hpf
    obtain ⟨hpmem, hpred⟩ := hpf
    have hfind : lookupUser users target = some p.2 := by
      have hfe := find_entry_of_nodup users p hnd hpmem
      rw [hpt] at hfe
      simp [lookupUser, hfe]
    refine ⟨p.2, hfind, ?_⟩
    simp only [Bool.or_eq_true, beq_iff_eq] at hpred
    rcases hpred with h | h
    · exact Or.inl h
    · exact Or.inr (hpt.symm.trans h)

/-- A demo sub-admin record created by `"admin1"`. -/
def demoSubRec : UserRecord :=
  { password := "pw2", is_admin := true, is_admin_owner := false,
    email := "sub@gmail.com", school_name := some "Green Valley",
    created_at := 0, trial_start := 0, trial_end := some 100,
    created_by := "admin1" }

/-- A demo two-user store: the AdminOwner and a sub-admin they created. -/
def demoUsers2 : UserStore := [("admin1", demoOwnerRec), ("bob", demoSubRec)]

/-- Witness for C9: deleting the AdminOwner `"admin1"` is refused; the
sub-admin `"bob"` is deletable by `"admin1"`, who created the record. -/
theorem claim_C9_admin_owner_protected_witness :
    delete_user demoUsers2 "bob" "admin1" = (false, demoUsers2)
    ∧ ∃ r, lookupUser demoUsers2 "bob" = some r
        ∧ (r.created_by = "admin1" ∨ "bob" = "admin1") :=
  ⟨(claim_C9_admin_owner_protected demoUsers2 "bob" "admin1" (by decide)).1
      demoOwnerRec (by decide) rfl,
   (claim_C9_admin_owner_protected demoUsers2 "admin1" "bob" (by decide)).2
      (by decide) (by decide)⟩

end MultiAdmin
namespace MultiAdmin

lemma find_map_replace (users : UserStore) (u : String) (v : UserRecord)
    (h : users.any (fun p => p.1 == u) = true) :
    (users.map (fun p => if p.1 == u then (u, v) else p)).find? (fun p => p.1 == u)
      = some (u, v) := by
  rw [List.find?_map]
  have hcomp : ((fun p : String × UserRecord => p.1 == u)
        ∘ (fun p => if p.1 == u then (u, v) else p))
      = (fun p => p.1 == u) := by
    funext p
    by_cases hp : (p.1 == u) = true
    · simp [Function.comp, hp]
    · simp [Function.comp, hp]
  rw [hcomp]
  cases hfind : users.find? (fun p => p.1 == u) with
  | none =>
    rcases List.any_eq_true.mp h with ⟨p, hpm, hpe⟩
    exact absurd hpe (List.find?_eq_none.mp hfind p hpm)
  | some q =>
    have hqe := List.find?_some hfind
    simp only at hqe
    simp [hqe]
    intro hne
    exact absurd (beq_iff_eq.mp hqe) hne

lemma find_append_new (users : UserStore) (u : String) (v : UserRecord)
    (h : users.any (fun p => p.1 == u) = false) :
    (users ++ [(u, v)]).find? (fun p => p.1 == u) = some (u, v) := by
  induction users with
  | nil => simp [List.find?_cons]
  | cons q qs ih =>
    rw [List.any_cons, Bool.or_eq_false_iff] at h
    rw [List.cons_append, List.find?_cons_of_neg _ ?_]
    · exact ih h.2
    · simp [h.1]

/-- Looking up a username just written by `insertUser` yields the new
record (Python `users[username] = rec` followed by `users[username]`). -/
lemma lookupUser_insertUser_self (users : UserStore) (u : String) (v : UserRecord) :
    lookupUser (insertUser users u v) u = some v := by
  unfold lookupUser insertUser
  by_cases h : users.any (fun p => p.1 == u) = true
  · rw [if_pos h, find_map_replace users u v h]
    rfl
  · rw [if_neg h, find_append_new users u v (Bool.not_eq_true _ ▸ h)]
    rfl

lemma any_key_of_lookup (users : UserStore) (u : String) (r : UserRecord)
    (h : lookupUser users u = some r) : users.any (fun p => p.1 == u) = true := by
  unfold lookupUser at h
  cases hfind : users.find? (fun p => p.1 == u) with
  | none => rw [hfind] at h; cases h
  | some p =>
    have hpe := List.find?_some hfind
    rw [List.any_eq_true]
    exact ⟨p, List.mem_of_find?_eq_some hfind, hpe⟩

/-- The record `create_user` writes on the successful path. -/
def createdRecord (hp : String → String) (users : UserStore) (cu : Option String)
    (now : Int) (password email : String) (school_name : Option String)
    (is_admin is_admin_owner : Bool) : UserRecord :=
  { password := hp password, is_admin := is_admin, is_admin_owner := is_admin_owner,
    email := email,
    school_name := if is_admin_owner then school_name else
      (match cu with
       | some u => (lookupUser users u).bind (fun x => x.school_name)
       | none => none),
    created_at := now, trial_start := now, trial_end := some (now + 30 * 86400),
    created_by := match cu with
      | some u => if u == "" then "system" else u
      | none => "system" }

/-- On the successful path `create_user` returns `true` and writes
`createdRecord` under the username. -/
lemma create_user_success_eq (hp : String → String) (users : UserStore)
    (cu : Option String) (now : Int) (username password email : String)
    (school_name : Option String) (is_admin is_admin_owner : Bool)
    (h1 : validate_email email = true)
    (h2 : users.any (fun p => p.2.email == email) = false)
    (h3 : (is_admin_owner && schoolNameMissing school_name) = false) :
    create_user hp users cu now username password email school_name is_admin is_admin_owner
      = (true, insertUser users username
          (createdRecord hp users cu now password email school_name is_admin is_admin_owner)) := by
  unfold create_user createdRecord
  simp [h1, h2, h3]

end MultiAdmin
namespace MultiAdmin

/-- Counterexample to C7 as stated: re-creating username `"u"` with the
very email already stored on `"u"` itself fails, although the email is
valid, the role is not AdminOwner, and no OTHER account carries the
email — the source compares against every account, its own included. -/
theorem claim_C7_counterexample :
    validate_email "a@gmail.com" = true
    ∧ (∀ p ∈ [("u", { password := "h", is_admin := false, is_admin_owner := false,
                      email := "a@gmail.com", school_name := none, created_at := 0,
                      trial_start := 0, trial_end := some 2592000,
                      created_by := "system" : UserRecord })],
        p.2.email = "a@gmail.com" → p.1 = "u")
    ∧ (create_user (fun s => s)
        [("u", { password := "h", is_admin := false, is_admin_owner := false,
                 email := "a@gmail.com", school_name := none, created_at := 0,
                 trial_start := 0, trial_end := some 2592000,
                 created_by := "system" : UserRecord })]
        none 0 "u" "pw" "a@gmail.com" none false false).1 = false := by
  decide

/-- Claim C7 as amended: `create_user` fails exactly when the email fails
the Gmail pattern, or the email is already present on any account
(including the record stored under the same username), or the role is
AdminOwner with an empty school name; otherwise it succeeds and stores a
record with a 30-day trial window from creation time. -/
theorem claim_C7_create_user_validation (hp : String → String) (users : UserStore)
    (cu : Option String) (now : Int) (username password email : String)
    (school_name : Option String) (is_admin is_admin_owner : Bool) :
    ((create_user hp users cu now username password email school_name is_admin is_admin_owner).1 = false
      ↔ (validate_email email = false
          ∨ (∃ p ∈ users, p.2.email = email)
          ∨ (is_admin_owner = true ∧ schoolNameMissing school_name = true)))
    ∧ ((create_user hp users cu now username password email school_name is_admin is_admin_owner).1 = true →
        ∃ r, lookupUser
            (create_user hp users cu now username password email school_name is_admin is_admin_owner).2
            username = some r
          ∧ r.password = hp password ∧ r.email = email
          ∧ r.trial_start = now ∧ r.trial_end = some (now + 30 * 86400)) := by
  by_cases h1 : validate_email email = true
  · by_cases h2 : users.any (fun p => p.2.email == email) = true
    · have hex : ∃ p ∈ users, p.2.email = email := by
        rcases List.any_eq_true.mp h2 with ⟨p, hpm, hpe⟩
        exact ⟨p, hpm, beq_iff_eq.mp hpe⟩
      have hres : (create_user hp users cu now username password email school_name
          is_admin is_admin_owner).1 = false := by
        unfold create_user
        simp [h1, h2]
      constructor
      · rw [hres]
        simp [hex]
      · intro habs
        rw [hres] at habs
        cases habs
    · have h2f : users.any (fun p => p.2.email == email) = false := Bool.not_eq_true _ ▸ h2
      have hnex : ¬ ∃ p ∈ users, p.2.email = email := by
        intro ⟨p, hpm, hpe⟩
        have h2t : (users.any fun q => q.2.email == email) = true := by
          rw [List.any_eq_true]
          exact ⟨p, hpm, by simp [hpe]⟩
        exact absurd h2t h2
      by_cases h3 : (is_admin_owner && schoolNameMissing school_name) = true
      · have h3p := Bool.and_eq_true_iff.mp h3
        have hres : (create_user hp users cu now username password email school_name
            is_admin is_admin_owner).1 = false := by
          unfold create_user
          simp [h1, h2f, h3]
        constructor
        · rw [hres]
          simp [h3p.1, h3p.2]
        · intro habs
          rw [hres] at habs
          cases habs
      · have h3f : (is_admin_owner && schoolNameMissing school_name) = false :=
          Bool.not_eq_true _ ▸ h3
        have h3n : ¬(is_admin_owner = true ∧ schoolNameMissing school_name = true) := by
          intro ⟨ha, hb⟩
          exact absurd (Bool.and_eq_true_iff.mpr ⟨ha, hb⟩) h3
        have hcr := create_user_success_eq hp users cu now username password email
          school_name is_admin is_admin_owner h1 h2f h3f
        constructor
        · rw [hcr]
          simp [h1, hnex, h3n]
        · intro _
          rw [hcr]
          exact ⟨createdRecord hp users cu now password email school_name is_admin is_admin_owner,
                 lookupUser_insertUser_self users username _, rfl, rfl, rfl, rfl⟩
  · have h1f : validate_email email = false := Bool.not_eq_true _ ▸ h1
    have hres : (create_user hp users cu now username password email school_name
        is_admin is_admin_owner).1 = false := by
      unfold create_user
      simp [h1f]
    constructor
    · rw [hres]
      simp [h1f]
    · intro habs
      rw [hres] at habs
      cases habs

/-- Witness for the amended C7: the scenario signup succeeds on an empty
store and the stored record carries the 30-day trial window. -/
theorem claim_C7_create_user_validation_witness :
    (create_user (fun s => s) [] none 0 "admin1" "pw" "admin1@gmail.com"
        (some "Green Valley") true true).1 = true
    ∧ ∃ r, lookupUser
          (create_user (fun s => s) [] none 0 "admin1" "pw" "admin1@gmail.com"
            (some "Green Valley") true true).2 "admin1" = some r
        ∧ r.password = "pw" ∧ r.email = "admin1@gmail.com"
        ∧ r.trial_start = 0 ∧ r.trial_end = some (0 + 30 * 86400) :=
  ⟨by decide,
   (claim_C7_create_user_validation (fun s => s) [] none 0 "admin1" "pw" "admin1@gmail.com"
      (some "Green Valley") true true).2 (by decide)⟩

/-- Claim C10: calling `create_user` with an already-existing username
does not fail with a duplicate-username error: if the email and
school-name validations pass it succeeds and silently replaces the
record for that username in place (store size unchanged) with a new one —
new password hash, new creation timestamp, a fresh 30-day trial window,
and the session's current user as creator. -/
theorem claim_C10_existing_username_replaced (hp : String → String) (users : UserStore)
    (cu : Option String) (now : Int) (username password email : String)
    (school_name : Option String) (is_admin is_admin_owner : Bool) (r : UserRecord)
    (hexist : lookupUser users username = some r)
    (hemail : validate_email email = true)
    (hdup : users.any (fun p => p.2.email == email) = false)
    (hschool : (is_admin_owner && schoolNameMissing school_name) = false) :
    (create_user hp users cu now username password email school_name is_admin is_admin_owner).1 = true
    ∧ ((create_user hp users cu now username password email school_name is_admin is_admin_owner).2).length
        = users.length
    ∧ lookupUser
        (create_user hp users cu now username password email school_name is_admin is_admin_owner).2
        username
      = some (createdRecord hp users cu now password email school_name is_admin is_admin_owner)
    ∧ (createdRecord hp users cu now password email school_name is_admin is_admin_owner).password
        = hp password
    ∧ (createdRecord hp users cu now password email school_name is_admin is_admin_owner).created_at = now
    ∧ (createdRecord hp users cu now password email school_name is_admin is_admin_owner).trial_start = now
    ∧ (createdRecord hp users cu now password email school_name is_admin is_admin_owner).trial_end
        = some (now + 30 * 86400)
    ∧ (createdRecord hp users cu now password email school_name is_admin is_admin_owner).created_by
        = (match cu with
           | some u => if u == "" then "system" else u
           | none => "system") := by
  have hcr := create_user_success_eq hp users cu now username password email
    school_name is_admin is_admin_owner hemail hdup hschool
  have hany := any_key_of_lookup users username r hexist
  refine ⟨by rw [hcr], ?_, ?_, rfl, rfl, rfl, rfl, rfl⟩
  · rw [hcr]
    unfold insertUser
    rw [if_pos hany, List.length_map]
  · rw [hcr]
    exact lookupUser_insertUser_self users username _

/-- Witness for C10: re-creating the existing `"bob"` with a fresh email
at time 50 succeeds and replaces the record in place. -/
theorem claim_C10_existing_username_replaced_witness :
    (create_user (fun s => s) demoUsers2 (some "admin1") 50 "bob" "npw" "bob2@gmail.com"
        none true false).1 = true
    ∧ ((create_user (fun s => s) demoUsers2 (some "admin1") 50 "bob" "npw" "bob2@gmail.com"
        none true false).2).length = demoUsers2.length
    ∧ lookupUser
        (create_user (fun s => s) demoUsers2 (some "admin1") 50 "bob" "npw" "bob2@gmail.com"
          none true false).2 "bob"
      = some (createdRecord (fun s => s) demoUsers2 (some "admin1") 50 "npw" "bob2@gmail.com"
          none true false)
    ∧ (createdRecord (fun s => s) demoUsers2 (some "admin1") 50 "npw" "bob2@gmail.com"
        none true false).password = "npw"
    ∧ (createdRecord (fun s => s) demoUsers2 (some "admin1") 50 "npw" "bob2@gmail.com"
        none true false).created_at = 50
    ∧ (createdRecord (fun s => s) demoUsers2 (some "admin1") 50 "npw" "bob2@gmail.com"
        none true false).trial_start = 50
    ∧ (createdRecord (fun s => s) demoUsers2 (some "admin1") 50 "npw" "bob2@gmail.com"
        none true false).trial_end = some (50 + 30 * 86400)
    ∧ (createdRecord (fun s => s) demoUsers2 (some "admin1") 50 "npw" "bob2@gmail.com"
        none true false).created_by = "admin1" :=
  claim_C10_existing_username_replaced (fun s => s) demoUsers2 (some "admin1") 50 "bob" "npw"
    "bob2@gmail.com" none true false demoSubRec (by decide) (by decide) (by decide) (by decide)

end MultiAdmin
